import Mathlib

/-!
Shallow embedding of the chin-up motion/physiology analysis core
(exercise form classifiers, temporal sample buffers, rep detection,
breathing analysis, predictive analytics), translated from the
JavaScript sources.  JS numbers are modelled as rationals; JS
truthiness on numbers (0 is falsy) and on nullable values is made
explicit via small helpers.
-/

namespace ChinUp

set_option maxRecDepth 100000

/-- A named, scored 2D keypoint, as supplied by the external pose source. -/
structure Keypoint where
  name : String
  x : ℚ
  y : ℚ
  score : ℚ
  deriving Repr, DecidableEq

/-- Lower-cases a string character-wise (JS toLowerCase on ASCII joint names). -/
def lowerChars (s : String) : List Char :=
  s.data.map Char.toLower

/-- JS `hay.toLowerCase().includes(needle.toLowerCase())`: case-insensitive
substring containment. -/
def containsSub (hay needle : String) : Bool :=
  let h := lowerChars hay
  let n := lowerChars needle
  (List.range (h.length + 1)).any (fun i => decide ((h.drop i).take n.length = n))

/-- JS truthiness on a nullable number: null and 0 are falsy. -/
def truthyQ (v : Option ℚ) : Option ℚ :=
  v.bind (fun q => if q = 0 then none else some q)

/-- JS truthiness on a nullable string: null and the empty string are falsy. -/
def truthyStr (e : Option String) : Bool :=
  match e with
  | none => false
  | some s => !decide (s = "")

/-- The keypoint lookup inside `createDataPoint` and `trackRep`:
`keypoints.find(kp => kp.name.toLowerCase().includes(name.toLowerCase()) && kp.score > 0.3)`.
Note the strict inequality on the 0.3 confidence threshold. -/
def getKeypoint (keypoints : List Keypoint) (name : String) : Option Keypoint :=
  keypoints.find? (fun kp => containsSub kp.name name && decide (kp.score > 0.3))

/-- Modelled from the spec: `findKeypoint` is imported from `angleUtils`, whose
source is not among the provided files.  Spec 4.1 `selectKeypoint`: case-insensitive
substring match against point names, filtered by confidence at least 0.3; if
multiple match, the first match in input order wins. -/
def findKeypoint (keypoints : List Keypoint) (name : String) : Option Keypoint :=
  keypoints.find? (fun kp => containsSub kp.name name && decide (kp.score ≥ 0.3))

/-- The per-frame movement data point built by `createDataPoint`. -/
structure DataPoint where
  timestamp : ℚ
  hipY : Option ℚ
  kneeY : Option ℚ
  shoulderY : Option ℚ
  chestY : Option ℚ
  centerY : Option ℚ
  hasFullBody : Bool
  deriving Repr, DecidableEq

/-- `createDataPoint(keypoints, timestamp)`: extracts chest position (shoulder
average, single shoulder, or nose + 50 fallback) and an approximate center of
mass.  `hip?.y || null` maps a missing joint or a zero coordinate to null
(JS truthiness), and `knee?.y || hip?.y || 0` falls through zero values. -/
def createDataPoint (keypoints : List Keypoint) (timestamp : ℚ) : Option DataPoint :=
  if keypoints.length = 0 then none else
  let leftHip := getKeypoint keypoints "left_hip"
  let rightHip := getKeypoint keypoints "right_hip"
  let leftKnee := getKeypoint keypoints "left_knee"
  let rightKnee := getKeypoint keypoints "right_knee"
  let leftShoulder := getKeypoint keypoints "left_shoulder"
  let rightShoulder := getKeypoint keypoints "right_shoulder"
  let nose := getKeypoint keypoints "nose"
  let hasUpperBody := leftShoulder.isSome || rightShoulder.isSome || nose.isSome
  let hasLowerBody := leftHip.isSome || rightHip.isSome
  if !hasUpperBody && !hasLowerBody then none else
  let chestY : Option ℚ :=
    match leftShoulder, rightShoulder, nose with
    | some ls, some rs, _ => some ((ls.y + rs.y) / 2)
    | some ls, none, _ => some ls.y
    | none, some rs, _ => some rs.y
    | none, none, some n => some (n.y + 50)
    | none, none, none => none
  let hip := leftHip.or rightHip
  let knee := leftKnee.or rightKnee
  let shoulder := leftShoulder.or rightShoulder
  let hipYv := truthyQ (hip.map Keypoint.y)
  let kneeYv := truthyQ (knee.map Keypoint.y)
  let shoulderYv := truthyQ (shoulder.map Keypoint.y)
  some {
    timestamp := timestamp
    hipY := hipYv
    kneeY := kneeYv
    shoulderY := shoulderYv
    chestY := chestY
    centerY :=
      if hasLowerBody then
        some ((hipYv.getD 0 + (kneeYv.or hipYv).getD 0 + (shoulderYv.or hipYv).getD 0) / 3)
      else chestY
    hasFullBody := hasLowerBody && hasUpperBody
  }

/-- Form quality attached to a rep record. -/
inductive FormQuality where
  | good
  | poor
  deriving Repr, DecidableEq

/-- A detected repetition (timestamp, duration since the previous rep, quality). -/
structure RepRecord where
  timestamp : ℚ
  duration : ℚ
  formQuality : FormQuality
  deriving Repr, DecidableEq

/-- A chest-position sample kept in the 10-second breathing window. -/
structure BreathingSample where
  timestamp : ℚ
  chestY : ℚ
  deriving Repr, DecidableEq

/-- The classifier result: feedback text, validity flag, optional named angles
(kneeAngle and hipAngle for squat, elbowAngle for push-up). -/
structure FormResult where
  feedback : String
  isValid : Bool
  kneeAngle : Option ℚ := none
  hipAngle : Option ℚ := none
  elbowAngle : Option ℚ := none
  deriving Repr, DecidableEq

/-- The mutable per-session refs of `usePresage`: movement window, rep history,
breathing window and the last rep timestamp. -/
structure TrackState where
  movementHistory : List DataPoint
  repHistory : List RepRecord
  breathingHistory : List BreathingSample
  lastRepTime : Option ℚ
  deriving Repr, DecidableEq

/-- The empty session state. -/
def emptyTrackState : TrackState :=
  { movementHistory := [], repHistory := [], breathingHistory := [], lastRepTime := none }

/-- HISTORY_WINDOW = 3000 ms of movement history. -/
def HISTORY_WINDOW : ℚ := 3000

/-- PREDICTION_INTERVAL = 5000 ms between prediction evaluations. -/
def PREDICTION_INTERVAL : ℚ := 5000

/-- MIN_REPS_FOR_ANALYSIS = 3 reps needed before predicting. -/
def MIN_REPS_FOR_ANALYSIS : Nat := 3

/-- BREATHING_WINDOW = 10000 ms of breathing data. -/
def BREATHING_WINDOW : ℚ := 10000

/-- `trackMovement(keypoints)`: append a breathing sample whenever the chest
estimate is truthy (independent of exercise selection), append the data point
to the 3-second movement window only when an exercise is selected, then prune
the 10-second breathing window. -/
def trackMovement (isActive : Bool) (exercise : Option String)
    (keypoints : Option (List Keypoint)) (now : ℚ) (st : TrackState) : TrackState :=
  if !isActive || keypoints.isNone then st else
  match createDataPoint (keypoints.getD []) now with
  | none => st
  | some dataPoint =>
    let st1 :=
      match truthyQ dataPoint.chestY with
      | some c =>
        { st with breathingHistory :=
            st.breathingHistory ++ [(⟨dataPoint.timestamp, c⟩ : BreathingSample)] }
      | none => st
    let st2 :=
      if truthyStr exercise then
        let appended := st1.movementHistory ++ [dataPoint]
        let cutoff := now - HISTORY_WINDOW
        { st1 with movementHistory := appended.filter (fun p => decide (p.timestamp > cutoff)) }
      else st1
    let breathingCutoff := now - BREATHING_WINDOW
    { st2 with breathingHistory :=
        st2.breathingHistory.filter (fun p => decide (p.timestamp > breathingCutoff)) }

/-- The centerY of a data point as used in the squat branch numeric comparisons
(a null centerY cannot occur for a non-null data point; getD 0 mirrors the JS
numeric coercion of null). -/
def cY (p : DataPoint) : ℚ :=
  p.centerY.getD 0

/-- JS `list.slice(-n)`: the last n elements (all of them when fewer). -/
def sliceLast {α : Type} (n : Nat) (l : List α) : List α :=
  l.drop (l.length - n)

/-- JS `history.reduce((min, point) => point.centerY > min.centerY ? point : min)`:
the sample with the maximal centerY (screen-lowest body position). -/
def reduceLowest (history : List DataPoint) : Option DataPoint :=
  match history with
  | [] => none
  | h :: t => some (t.foldl (fun mn p => if cY p > cY mn then p else mn) h)

/-- The push-up variant of the reduce, skipping samples with a falsy shoulderY:
`point.shoulderY && min.shoulderY ? (point.shoulderY > min.shoulderY ? point : min) : min`. -/
def reduceLowestShoulder (history : List DataPoint) : Option DataPoint :=
  match history with
  | [] => none
  | h :: t => some (t.foldl (fun mn p =>
      match truthyQ p.shoulderY, truthyQ mn.shoulderY with
      | some py, some my => if py > my then p else mn
      | _, _ => mn) h)

/-- Push a rep record and evict the oldest entry when the buffer exceeds 10
(the inline push + length-check + shift of `trackRep`). -/
def pushRepRecord (repHistory : List RepRecord) (r : RepRecord) : List RepRecord :=
  let h := repHistory ++ [r]
  if h.length > 10 then h.drop 1 else h

/-- The rep-recording block of `trackRep`: when a previous rep timestamp exists
(JS truthiness on `lastRepTimeRef.current`), append a record with the duration
since it; in every case update the last rep timestamp. -/
def recordRep (st : TrackState) (now : ℚ) (isValid : Bool) : TrackState :=
  match truthyQ st.lastRepTime with
  | some t =>
    { st with
      repHistory := pushRepRecord st.repHistory
        ⟨now, now - t, if isValid then FormQuality.good else FormQuality.poor⟩
      lastRepTime := some now }
  | none => { st with lastRepTime := some now }

/-- `trackRep(keypoints, formAnalysis)`: extremum + hysteresis rep detection.
The angle function stands for `calculateAngle` from `angleUtils`, whose source
is not among the provided files (spec 4.1: the angle at the middle vertex, in
degrees).  The push-up branch also computes a `wasAtBottom` flag from the elbow
angle that the source never uses; it is omitted here. -/
def trackRep (angle : Keypoint → Keypoint → Keypoint → ℚ) (isActive : Bool)
    (exercise : Option String) (keypoints : Option (List Keypoint))
    (formAnalysis : Option FormResult) (now : ℚ) (st : TrackState) : TrackState :=
  if !isActive || !truthyStr exercise || keypoints.isNone then st else
  let kps := keypoints.getD []
  match createDataPoint kps now with
  | none => st
  | some dataPoint =>
    let history := st.movementHistory
    if history.length < 10 then st else
    let formValid := (formAnalysis.map FormResult.isValid).getD false
    if exercise = some "squat" then
      match reduceLowest history with
      | none => st
      | some lowestPoint =>
        let isAtBottom := decide (|cY dataPoint - cY lowestPoint| < 20)
        let recentPoints := sliceLast 5 history
        let wasLower := recentPoints.any (fun p => decide (cY p > cY dataPoint + 30))
        if wasLower && !isAtBottom && formValid then recordRep st now formValid else st
    else if exercise = some "push-up" then
      match truthyQ dataPoint.shoulderY with
      | none => st
      | some shY =>
        match reduceLowestShoulder history with
        | none => st
        | some lowestPoint =>
          match truthyQ lowestPoint.shoulderY with
          | none => st
          | some lowY =>
            let isAtBottom := decide (|shY - lowY| < 20)
            let recentPoints := sliceLast 5 history
            let wasLower := recentPoints.any (fun p =>
              match truthyQ p.shoulderY, truthyQ dataPoint.shoulderY with
              | some py, some dy => decide (py > dy + 30)
              | _, _ => false)
            match getKeypoint kps "shoulder", getKeypoint kps "elbow", getKeypoint kps "wrist" with
            | some shoulder, some elbow, some wrist =>
              let elbowAngle := angle shoulder elbow wrist
              let isAtTop := decide (elbowAngle > 160)
              if wasLower && !isAtBottom && isAtTop && formValid then
                recordRep st now formValid
              else st
            | _, _, _ => st
    else st

/-- Fatigue / risk levels of a prediction. -/
inductive Level where
  | low
  | medium
  | high
  deriving Repr, DecidableEq

/-- A coaching suggestion (type, message, priority). -/
structure Suggestion where
  type : String
  message : String
  priority : String
  deriving Repr, DecidableEq

/-- The prediction object built by `analyzeAndPredict`. -/
structure Prediction where
  fatigueLevel : Level
  riskOfMistake : Level
  suggestions : List Suggestion
  deriving Repr, DecidableEq

/-- JS `list.reduce((sum, x) => sum + x, 0)`. -/
def sumQ (l : List ℚ) : ℚ :=
  l.foldl (fun s x => s + x) 0

/-- The milestone message with the rep count interpolated. -/
def encouragementMessage (n : Nat) : String :=
  "Great work! You\x27ve completed " ++ toString n ++ " reps. Keep it up!"

/-- Fatigue suggestion: slowing down. -/
def suggSlowing : Suggestion :=
  ⟨"fatigue", "You\x27re slowing down. Consider taking a short break soon.", "medium"⟩

/-- Fatigue suggestion: take a break. -/
def suggBreak : Suggestion :=
  ⟨"fatigue", "Take a short break to avoid fatigue and maintain good form.", "high"⟩

/-- Form suggestion: focus on form. -/
def suggFocus : Suggestion :=
  ⟨"form", "Focus on maintaining your form. Slow down if needed.", "medium"⟩

/-- Form suggestion: posture may weaken. -/
def suggPosture : Suggestion :=
  ⟨"form", "Your posture may weaken after the next rep. Slow down and focus on form.", "high"⟩

/-- The every-5th-rep encouragement suggestion with the rep count interpolated. -/
def suggEncouragement (n : Nat) : Suggestion :=
  ⟨"encouragement", encouragementMessage n, "low"⟩

/-- Population variance of a list of rationals, as computed inline by both
`analyzeAndPredict` (movement variability) and `analyzeBreathing` (mean, then
mean of squared deviations). -/
def varianceQ (xs : List ℚ) : ℚ :=
  let avg := sumQ xs / (xs.length : ℚ)
  sumQ (xs.map (fun y => (y - avg) ^ 2)) / (xs.length : ℚ)

/-- The `recentFormQuality` expression of `analyzeAndPredict`: fraction of the
given reps whose form quality is good. -/
def goodFraction (reps : List RepRecord) : ℚ :=
  ((reps.filter (fun r => decide (r.formQuality = FormQuality.good))).length : ℚ)
    / (reps.length : ℚ)

/-- `analyzeAndPredict()`: fatigue and mistake-risk classification from the last
reps and the movement-sample variance, plus the every-5th-rep encouragement.
The suggestion pushes and level escalations happen in source order. -/
def analyzeAndPredict (isActive : Bool) (exercise : Option String)
    (st : TrackState) : Option Prediction :=
  if !isActive || !truthyStr exercise then none else
  let history := st.movementHistory
  let reps := st.repHistory
  if history.length < 20 || reps.length < MIN_REPS_FOR_ANALYSIS then none else
  let recentReps := sliceLast 5 reps
  let avgRepDuration := sumQ (recentReps.map RepRecord.duration) / (recentReps.length : ℚ)
  let speedTrend :=
    if recentReps.length ≥ 3 then
      sumQ ((sliceLast 3 recentReps).map RepRecord.duration) / 3
    else avgRepDuration
  let speedIncrease := decide (speedTrend > avgRepDuration * 1.2)
  let formDeclining := decide (goodFraction recentReps < 0.6)
  let highVariability := decide (varianceQ ((sliceLast 30 history).map cY) > 1000)
  let fatigue1 := if speedIncrease && decide (recentReps.length ≥ 3) then Level.medium else Level.low
  let suggestions1 : List Suggestion :=
    if speedIncrease && decide (recentReps.length ≥ 3) then [suggSlowing] else []
  let fatigue2 := if speedIncrease && formDeclining then Level.high else fatigue1
  let suggestions2 := suggestions1 ++
    (if speedIncrease && formDeclining then [suggBreak] else [])
  let risk1 := if formDeclining && !speedIncrease then Level.medium else Level.low
  let suggestions3 := suggestions2 ++
    (if formDeclining && !speedIncrease then [suggFocus] else [])
  let risk2 := if highVariability && formDeclining then Level.high else risk1
  let suggestions4 := suggestions3 ++
    (if highVariability && formDeclining then [suggPosture] else [])
  let suggestions5 := suggestions4 ++
    (if decide (reps.length > 0) && decide (reps.length % 5 = 0) then
      [suggEncouragement reps.length] else [])
  if suggestions5.length > 0 then some ⟨fatigue2, risk2, suggestions5⟩ else none

/-- The throttling state of `getPredictions`: the last evaluation time and the
cached prediction exposed via setPredictions. -/
structure PredState where
  lastPredictionTime : ℚ
  cached : Option Prediction
  deriving Repr, DecidableEq

/-- `getPredictions()`: return the cached prediction inside the 5-second
interval; otherwise re-evaluate, cache and return a non-null result, or
return null (leaving the cache untouched). -/
def getPredictions (isActive : Bool) (exercise : Option String) (st : TrackState)
    (ps : PredState) (now : ℚ) : Option Prediction × PredState :=
  if now - ps.lastPredictionTime < PREDICTION_INTERVAL then (ps.cached, ps) else
  let ps1 : PredState := { ps with lastPredictionTime := now }
  match analyzeAndPredict isActive exercise st with
  | some p => (some p, { ps1 with cached := some p })
  | none => (none, ps1)

/-- Signal confidence of the breathing estimate. -/
inductive Confidence where
  | low
  | medium
  | high
  deriving Repr, DecidableEq

/-- The stdDev classification of `analyzeBreathing`, expressed on the variance.
The source compares `stdDev = Math.sqrt(variance)` against 5, 50 and 20 in that
order; since the variance is nonnegative and squaring is monotone on
nonnegatives, the conditions are equivalent to comparing the variance against
25, 2500 and 400 (see `classifyVariance_eq_stdDev`). -/
def classifyVariance (variance : ℚ) : Confidence :=
  if variance < 25 then Confidence.low
  else if variance > 2500 then Confidence.low
  else if variance > 400 then Confidence.medium
  else Confidence.high

/-- The signal-confidence part of `analyzeBreathing()`: fewer than 30 buffered
samples give low confidence; otherwise classify by the standard deviation of
the chest-Y samples. -/
def analyzeBreathingConfidence (breathingData : List BreathingSample) : Confidence :=
  if breathingData.length < 30 then Confidence.low
  else classifyVariance (varianceQ (breathingData.map BreathingSample.chestY))

/-- Squat message: not deep enough. -/
def msgSquatNotDeep : String := "Bend your knees more to go deeper into the squat"

/-- Squat message: great depth. -/
def msgSquatGreatDepth : String := "Great depth! Keep your knees aligned with your toes"

/-- Squat message: good form. -/
def msgSquatGoodForm : String := "Good form! You\x27re getting deep into the squat"

/-- Squat message: default encouragement. -/
def msgSquatKeepItUp : String := "You\x27re doing great! Keep it up!"

/-- Squat message: back alignment secondary check. -/
def msgSquatBack : String := "Keep your back straight and chest up"

/-- Squat message: knee alignment secondary check. -/
def msgSquatKneeAlign : String := "Keep your knees aligned with your toes, don\x27t let them cave in"

/-- The knee-alignment trigger of `analyzeSquat`.  The source computes
`alignmentRatio = |knee.x - ankle.x| / (hipKneeDistance || 1)` with
`hipKneeDistance = sqrt((hip.x-knee.x)^2 + (hip.y-knee.y)^2)` and triggers on
`alignmentRatio > 0.3`.  Both sides being nonnegative, the comparison is
equivalent to the squared one: against `0.09 * distSq` when the distance is
nonzero, and against `0.09` when it is zero (the `|| 1` floor). -/
def kneeAlignTriggered (hip knee ankle : Keypoint) : Bool :=
  let alignSq := (knee.x - ankle.x) ^ 2
  let distSq := (hip.x - knee.x) ^ 2 + (hip.y - knee.y) ^ 2
  if distSq = 0 then decide (alignSq > 0.09) else decide (alignSq > 0.09 * distSq)

/-- The body of `analyzeSquat` once the mandatory hip/knee/ankle joints are
resolved: depth classification by knee angle, then the back-alignment and
knee-alignment secondary checks, each overwriting feedback and forcing
invalidity when triggered. -/
def analyzeSquatCore (angle : Keypoint → Keypoint → Keypoint → ℚ)
    (hip knee ankle : Keypoint) (shoulder : Option Keypoint) : FormResult :=
  let kneeAngle := angle hip knee ankle
  let hipAngle : Option ℚ := shoulder.map (fun s => angle s hip knee)
  let r1 : String × Bool :=
    if kneeAngle > 160 then (msgSquatNotDeep, false)
    else if kneeAngle < 70 then (msgSquatGreatDepth, true)
    else if kneeAngle < 100 then (msgSquatGoodForm, true)
    else (msgSquatKeepItUp, true)
  let r2 : String × Bool :=
    match hipAngle with
    | some ha => if ha < 150 then (msgSquatBack, false) else r1
    | none => r1
  let r3 : String × Bool :=
    if kneeAlignTriggered hip knee ankle then (msgSquatKneeAlign, false) else r2
  { feedback := r3.1, isValid := r3.2, kneeAngle := some kneeAngle, hipAngle := hipAngle }

/-- `analyzeSquat(keypoints)`: resolve joints with the prefer-left policy; with
a mandatory joint missing return the neutral result, otherwise classify.  The
angle parameter stands for `calculateAngle` from `angleUtils` (source not
among the provided files). -/
def analyzeSquat (angle : Keypoint → Keypoint → Keypoint → ℚ)
    (keypoints : List Keypoint) : FormResult :=
  let hip := (findKeypoint keypoints "left_hip").or (findKeypoint keypoints "right_hip")
  let knee := (findKeypoint keypoints "left_knee").or (findKeypoint keypoints "right_knee")
  let ankle := (findKeypoint keypoints "left_ankle").or (findKeypoint keypoints "right_ankle")
  let shoulder :=
    (findKeypoint keypoints "left_shoulder").or (findKeypoint keypoints "right_shoulder")
  match hip, knee, ankle with
  | some h, some k, some a => analyzeSquatCore angle h k a shoulder
  | _, _, _ => { feedback := "", isValid := false }

/-- Push-up message: not low enough (top of range). -/
def msgPushLower : String := "Lower your body more to get full range of motion"

/-- Push-up message: excellent depth. -/
def msgPushExcellent : String := "Excellent depth! You\x27re going all the way down"

/-- Push-up message: good depth. -/
def msgPushGoodDepth : String := "Good depth! Keep your body straight"

/-- Push-up message: encouragement to go deeper. -/
def msgPushGreat : String := "You\x27re doing great! Try to go a bit deeper"

/-- Push-up message: incomplete push-up. -/
def msgPushComplete : String := "Lower your body more for a complete push-up"

/-- Push-up message: body alignment secondary check. -/
def msgPushStraight : String := "Keep your body in a straight line from head to toe"

/-- Push-up message: hand placement secondary check. -/
def msgPushHands : String := "Keep your hands directly under your shoulders"

/-- Push-up message: elbow flare secondary check. -/
def msgPushElbows : String := "Keep your elbows closer to your body, not flared out"

/-- The body of `analyzePushUp` once shoulder/elbow/wrist are resolved: depth
classification by elbow angle, then the body-alignment, hand-placement and
elbow-flare secondary checks in source order.  The source also computes two
distances it never uses in the alignment branch; they are omitted. -/
def analyzePushUpCore (angle : Keypoint → Keypoint → Keypoint → ℚ)
    (shoulder elbow wrist : Keypoint) (hip ankle : Option Keypoint) : FormResult :=
  let elbowAngle := angle shoulder elbow wrist
  let r1 : String × Bool :=
    if elbowAngle > 170 then (msgPushLower, false)
    else if elbowAngle < 80 then (msgPushExcellent, true)
    else if elbowAngle < 100 then (msgPushGoodDepth, true)
    else if elbowAngle < 140 then (msgPushGreat, true)
    else (msgPushComplete, false)
  let r2 : String × Bool :=
    match hip, ankle with
    | some h, some a =>
      let bodyAngle := angle shoulder h a
      if bodyAngle < 160 then (msgPushStraight, false) else r1
    | _, _ => r1
  let r3 : String × Bool :=
    if wrist.x < shoulder.x - 50 then (msgPushHands, false) else r2
  let horizontalDistance := |elbow.x - shoulder.x|
  let verticalDistance := |elbow.y - shoulder.y|
  let flareRatio := horizontalDistance / (if verticalDistance = 0 then 1 else verticalDistance)
  let r4 : String × Bool :=
    if flareRatio > 1.5 then (msgPushElbows, false) else r3
  { feedback := r4.1, isValid := r4.2, elbowAngle := some elbowAngle }

/-- `analyzePushUp(keypoints)`: resolve joints with the prefer-left policy;
with a mandatory shoulder/elbow/wrist missing return the neutral result.  The
source also resolves the nose but never uses it. -/
def analyzePushUp (angle : Keypoint → Keypoint → Keypoint → ℚ)
    (keypoints : List Keypoint) : FormResult :=
  let shoulder :=
    (findKeypoint keypoints "left_shoulder").or (findKeypoint keypoints "right_shoulder")
  let elbow := (findKeypoint keypoints "left_elbow").or (findKeypoint keypoints "right_elbow")
  let wrist := (findKeypoint keypoints "left_wrist").or (findKeypoint keypoints "right_wrist")
  let hip := (findKeypoint keypoints "left_hip").or (findKeypoint keypoints "right_hip")
  let ankle := (findKeypoint keypoints "left_ankle").or (findKeypoint keypoints "right_ankle")
  match shoulder, elbow, wrist with
  | some s, some e, some w => analyzePushUpCore angle s e w hip ankle
  | _, _, _ => { feedback := "", isValid := false }

/-- The reset effect of `usePresage` (dependencies: isActive and exercise).  Its
body clears the buffers and the last rep timestamp only when `isActive` is
false; the exercise dependency alone changes nothing. -/
def resetEffect (isActive : Bool) (_exercise : Option String) (st : TrackState) : TrackState :=
  if !isActive then emptyTrackState else st

/-! Concrete fixtures used by witnesses and counterexamples. -/

/-- A frame holding only a left hip at height 50 (enough for a data point with
centerY 50). -/
def kps1 : List Keypoint := [⟨"left_hip", 0, 50, 1⟩]

/-- A data point with only a centerY, as stored in the movement window. -/
def dpAt (t y : ℚ) : DataPoint :=
  ⟨t, none, none, none, none, some y, false⟩

/-- Twenty movement samples, all at centerY 100 (the squat bottom). -/
def hist20 : List DataPoint := (List.range 20).map (fun i => dpAt i 100)

/-- The data point `createDataPoint` builds from `kps1`. -/
def dpC1 : DataPoint :=
  ⟨100, some 50, none, none, none, some 50, false⟩

/-- A session state ready for rep detection: full movement window, no reps yet. -/
def st0 : TrackState := ⟨hist20, [], [], none⟩

/-- Like `st0` but with a previous rep timestamp already recorded. -/
def stC1W : TrackState := ⟨hist20, [], [], some 5⟩

/-- A trivial stand-in for the external angle function. -/
def angle0 : Keypoint → Keypoint → Keypoint → ℚ := fun _ _ _ => 0

/-- An angle function that always reports 90 degrees. -/
def angle90 : Keypoint → Keypoint → Keypoint → ℚ := fun _ _ _ => 90

/-- A valid form result. -/
def frValid : FormResult := { feedback := "", isValid := true }

/-- Iterate `trackRep` n times from `st0` on the same squat frame at times
1, 2, …, n: each call detects a completed rep. -/
def foldReps (n : Nat) : TrackState :=
  (List.range n).foldl
    (fun s i => trackRep angle0 true (some "squat") (some kps1) (some frValid) ((i : ℚ) + 1) s)
    st0

/-- Thirty chest samples whose standard deviation is exactly 20
(variance 400: half at 0, half at 40). -/
def breathC6 : List BreathingSample :=
  (List.replicate 15 (⟨0, 0⟩ : BreathingSample))
    ++ (List.replicate 15 (⟨0, 40⟩ : BreathingSample))

/-- Thirty chest samples whose standard deviation is exactly 6
(variance 36: half at 0, half at 12). -/
def breathW6 : List BreathingSample :=
  (List.replicate 15 (⟨0, 0⟩ : BreathingSample))
    ++ (List.replicate 15 (⟨0, 12⟩ : BreathingSample))

/-- Both shoulders visible at height 0: the chest estimate exists and is 0. -/
def kpsZeroShoulders : List Keypoint :=
  [⟨"left_shoulder", 0, 0, 1⟩, ⟨"right_shoulder", 0, 0, 1⟩]

/-- A frame with a single shoulder at height 30. -/
def kpsW9 : List Keypoint := [⟨"left_shoulder", 5, 30, 1⟩]

/-- The data point `createDataPoint` builds from `kpsW9`. -/
def dpW9 : DataPoint :=
  ⟨0, none, none, some 30, some 30, some 30, false⟩

/-- A squat frame whose geometry fails the knee-alignment check (knee far from
ankle horizontally) and, with `angle90`, also the back-alignment check. -/
def kpsC7 : List Keypoint :=
  [⟨"left_hip", 0, 0, 1⟩, ⟨"left_knee", 0, 10, 1⟩, ⟨"left_ankle", 100, 10, 1⟩,
   ⟨"left_shoulder", 5, 5, 1⟩]

/-- A frame with hip, knee and shoulder but no ankle, elbow or wrist. -/
def kpsC8 : List Keypoint :=
  [⟨"left_hip", 0, 0, 1⟩, ⟨"left_knee", 0, 1, 1⟩, ⟨"left_shoulder", 0, 2, 1⟩]

/-- A populated session state (used to watch the reset effect). -/
def stC2 : TrackState :=
  ⟨[dpAt 0 100], [⟨1, 1, FormQuality.good⟩], [⟨0, 5⟩], some 1⟩

/-- A session state with 20 movement samples and 5 good reps of duration 1. -/
def stW : TrackState :=
  ⟨hist20, (List.range 5).map (fun i => ⟨(i : ℚ) + 1, 1, FormQuality.good⟩), [], some 5⟩

/-- The prediction `analyzeAndPredict` produces on `stW`. -/
def predW : Prediction :=
  ⟨Level.low, Level.low, [suggEncouragement 5]⟩

/-! Theorems. -/

/-- C10 (amended): keypoint selection matches canonical joint names by
case-insensitive substring containment, filters by confidence strictly greater
than 0.3 (a score of exactly 0.3 is not usable), and when multiple points
match, the first match in input order wins. -/
theorem C10_keypoint_selection (kps : List Keypoint) (name : String) :
    (∀ kp, getKeypoint kps name = some kp →
      kp ∈ kps ∧ containsSub kp.name name = true ∧ kp.score > 0.3)
    ∧ ((getKeypoint kps name).isSome ↔
        ∃ kp ∈ kps, containsSub kp.name name = true ∧ kp.score > 0.3)
    ∧ (∀ (pre : List Keypoint) (kp : Keypoint) (post : List Keypoint),
        kps = pre ++ kp :: post →
        containsSub kp.name name = true → kp.score > 0.3 →
        (∀ q ∈ pre, ¬(containsSub q.name name = true ∧ q.score > 0.3)) →
        getKeypoint kps name = some kp) := by
  refine ⟨?_, ?_, ?_⟩
  · intro kp h
    have h1 := List.find?_some h
    have h2 := List.mem_of_find?_eq_some h
    simp only [Bool.and_eq_true, decide_eq_true_eq] at h1
    exact ⟨h2, h1.1, h1.2⟩
  · rw [getKeypoint, List.find?_isSome]
    constructor
    · rintro ⟨x, hx, hp⟩
      simp only [Bool.and_eq_true, decide_eq_true_eq] at hp
      exact ⟨x, hx, hp.1, hp.2⟩
    · rintro ⟨x, hx, h1, h2⟩
      exact ⟨x, hx, by simp [h1, h2]⟩
  · intro pre kp post hsplit hname hscore hpre
    subst hsplit
    induction pre with
    | nil =>
      rw [List.nil_append, getKeypoint, List.find?_cons_of_pos]
      simp [hname, hscore]
    | cons q qs ih =>
      have hq := hpre q (by simp)
      rw [List.cons_append, getKeypoint, List.find?_cons_of_neg]
      · exact ih (fun x hx => hpre x (by simp [hx]))
      · simp only [Bool.and_eq_true, decide_eq_true_eq, not_and]
        intro hc hs
        exact hq ⟨hc, hs⟩

/-- C10 counterexample: a keypoint with score exactly 0.3 is not usable — the
source filters with a strict `score > 0.3`, so the claimed boundary behavior
(exactly 0.3 usable) is false. -/
theorem C10_counterexample :
    getKeypoint [⟨"left_hip", 5, 7, 0.3⟩] "left_hip" = none := by
  with_unfolding_all decide

/-- C10 witness: case-insensitive matching and first-match-wins at a concrete
frame (a below-threshold point is skipped, the upper-case name still matches). -/
theorem C10_witness :
    getKeypoint
      [⟨"left_hip", 0, 0, 0.2⟩, ⟨"LEFT_HIP", 1, 2, 0.9⟩, ⟨"left_hip_b", 3, 4, 0.8⟩]
      "left_hip" = some ⟨"LEFT_HIP", 1, 2, 0.9⟩ :=
  (C10_keypoint_selection _ "left_hip").2.2
    [⟨"left_hip", 0, 0, 0.2⟩] ⟨"LEFT_HIP", 1, 2, 0.9⟩ [⟨"left_hip_b", 3, 4, 0.8⟩]
    rfl (by with_unfolding_all decide) (by with_unfolding_all decide)
    (by with_unfolding_all decide)

/-- The variance-threshold classification agrees with the stdDev-threshold
classification of the source on every nonnegative rational stdDev. -/
theorem classifyVariance_eq_stdDev (s : ℚ) (hs : 0 ≤ s) :
    classifyVariance (s ^ 2) =
      (if s < 5 then Confidence.low
       else if s > 50 then Confidence.low
       else if s > 20 then Confidence.medium
       else Confidence.high) := by
  have h1 : s ^ 2 < 25 ↔ s < 5 := by constructor <;> intro h <;> nlinarith
  have h2 : s ^ 2 > 2500 ↔ s > 50 := by constructor <;> intro h <;> nlinarith
  have h3 : s ^ 2 > 400 ↔ s > 20 := by constructor <;> intro h <;> nlinarith
  simp only [classifyVariance, h1, h2, h3]

/-- C6 (amended): with at least 30 buffered chest samples, signal confidence is
classified from the standard deviation s of the chest-Y samples as: s < 5 →
low, s > 50 → low, 20 < s ≤ 50 → medium, 5 ≤ s ≤ 20 → high; the boundary
stdev of exactly 20 is classified high (the source uses a strict `stdDev > 20`
for medium), not medium as claimed. -/
theorem C6_breathing_confidence (breathingData : List BreathingSample) (s : ℚ)
    (hlen : 30 ≤ breathingData.length) (hs : 0 ≤ s)
    (hv : varianceQ (breathingData.map BreathingSample.chestY) = s ^ 2) :
    (s < 5 → analyzeBreathingConfidence breathingData = Confidence.low)
    ∧ (5 ≤ s → s ≤ 20 → analyzeBreathingConfidence breathingData = Confidence.high)
    ∧ (20 < s → s ≤ 50 → analyzeBreathingConfidence breathingData = Confidence.medium)
    ∧ (50 < s → analyzeBreathingConfidence breathingData = Confidence.low) := by
  have hguard : ¬ breathingData.length < 30 := by omega
  unfold analyzeBreathingConfidence
  rw [if_neg hguard, hv, classifyVariance_eq_stdDev s hs]
  refine ⟨?_, ?_, ?_, ?_⟩
  · intro h
    rw [if_pos h]
  · intro h1 h2
    rw [if_neg (by linarith), if_neg (by linarith), if_neg (by linarith)]
  · intro h1 h2
    rw [if_neg (by linarith), if_neg (by linarith), if_pos h1]
  · intro h
    rw [if_neg (by linarith), if_pos h]

/-- C6 counterexample: thirty chest samples with standard deviation exactly 20
(variance 400) are classified high, not medium as the claim states. -/
theorem C6_counterexample :
    varianceQ (breathC6.map BreathingSample.chestY) = 20 ^ 2
    ∧ analyzeBreathingConfidence breathC6 = Confidence.high
    ∧ Confidence.high ≠ Confidence.medium := by with_unfolding_all decide

/-- C6 witness: thirty chest samples with standard deviation exactly 6 are
classified high. -/
theorem C6_witness : analyzeBreathingConfidence breathW6 = Confidence.high :=
  (C6_breathing_confidence breathW6 6 (by decide) (by norm_num)
    (by with_unfolding_all decide)).2.1 (by norm_num) (by norm_num)

/-- C2: the reset effect leaves a populated session untouched when the exercise
changes while tracking stays active (resets happen only on deactivation) — the
code contradicts both the spec and its own comment, which promise a reset on
exercise change. -/
theorem C2_no_reset_on_exercise_change :
    resetEffect true (some "push-up") stC2 = stC2
    ∧ stC2.movementHistory ≠ [] ∧ stC2.repHistory ≠ []
    ∧ stC2.breathingHistory ≠ [] ∧ stC2.lastRepTime ≠ none
    ∧ resetEffect false (some "push-up") stC2 = emptyTrackState := by
  with_unfolding_all decide

/-- A data point carries the timestamp it was created with. -/
theorem createDataPoint_timestamp (kps : List Keypoint) (t : ℚ) (dp : DataPoint)
    (h : createDataPoint kps t = some dp) : dp.timestamp = t := by
  simp only [createDataPoint] at h
  split_ifs at h <;> cases h <;> rfl

/-- C9 (amended): for every frame processed while tracking is active, whenever
the chest-position estimate exists and is nonzero (the source guards the append
with a JS truthiness test, so a zero estimate is skipped), a BreathingSample
with the frame timestamp and that estimate is appended to the 10-second
breathing window, independent of whether an exercise is selected. -/
theorem C9_breathing_append (exercise : Option String) (kps : List Keypoint)
    (now : ℚ) (st : TrackState) (dp : DataPoint) (c : ℚ)
    (hdp : createDataPoint kps now = some dp)
    (hc : truthyQ dp.chestY = some c) :
    (trackMovement true exercise (some kps) now st).breathingHistory =
      (st.breathingHistory ++ [(⟨now, c⟩ : BreathingSample)]).filter
        (fun p => decide (p.timestamp > now - BREATHING_WINDOW))
    ∧ (⟨now, c⟩ : BreathingSample) ∈ (trackMovement true exercise (some kps) now st).breathingHistory := by
  have hts : dp.timestamp = now := createDataPoint_timestamp kps now dp hdp
  have hmain : (trackMovement true exercise (some kps) now st).breathingHistory =
      (st.breathingHistory ++ [(⟨now, c⟩ : BreathingSample)]).filter
        (fun p => decide (p.timestamp > now - BREATHING_WINDOW)) := by
    simp only [trackMovement, Bool.not_true, Option.isNone_some, Bool.or_self,
      Bool.false_or, Option.getD_some, if_false, hdp, hc, hts]
    split_ifs <;> first | rfl | exact False.elim (by assumption)
  refine ⟨hmain, ?_⟩
  rw [hmain, List.mem_filter]
  refine ⟨List.mem_append_right _ (List.mem_singleton_self _), ?_⟩
  simp only [decide_eq_true_eq, BREATHING_WINDOW]
  linarith

/-- C9 counterexample: both shoulders at height 0 produce a chest estimate of
exactly 0 (the estimate exists), yet no breathing sample is appended — the
truthiness guard drops it, so the claim as stated is false. -/
theorem C9_counterexample :
    (createDataPoint kpsZeroShoulders 0).map DataPoint.chestY = some (some 0)
    ∧ (trackMovement true none (some kpsZeroShoulders) 0 emptyTrackState).breathingHistory
        = [] := by
  with_unfolding_all decide

/-- C9 witness: a single visible shoulder at height 30, with no exercise
selected, appends the sample (30 is truthy). -/
theorem C9_witness :
    (⟨0, 30⟩ : BreathingSample) ∈
      (trackMovement true none (some kpsW9) 0 emptyTrackState).breathingHistory :=
  (C9_breathing_append none kpsW9 0 emptyTrackState dpW9 30
    (by with_unfolding_all decide) (by with_unfolding_all decide)).2

/-- C1 (amended): when the squat hysteresis condition holds (recent sample 30
units lower, current sample more than 20 units away from the window extremum)
and the form result is valid, then: with a prior rep timestamp, a good-quality
RepRecord with the elapsed duration is appended (evicting the oldest entry once
the buffer exceeds 10 — the buffer never grows beyond 10) and the timestamp is
updated; for the very first detected rep no record is appended at all — only
the timestamp is set. -/
theorem C1_rep_recording (angle : Keypoint → Keypoint → Keypoint → ℚ)
    (kps : List Keypoint) (fa : Option FormResult) (now : ℚ) (st : TrackState)
    (dp lowest : DataPoint)
    (hdp : createDataPoint kps now = some dp)
    (hlen : 10 ≤ st.movementHistory.length)
    (hlow : reduceLowest st.movementHistory = some lowest)
    (hnb : ¬ |cY dp - cY lowest| < 20)
    (hwl : (sliceLast 5 st.movementHistory).any (fun p => decide (cY p > cY dp + 30)) = true)
    (hv : (fa.map FormResult.isValid).getD false = true) :
    (∀ t, truthyQ st.lastRepTime = some t →
      (trackRep angle true (some "squat") (some kps) fa now st).repHistory =
        pushRepRecord st.repHistory ⟨now, now - t, FormQuality.good⟩
      ∧ (trackRep angle true (some "squat") (some kps) fa now st).lastRepTime = some now)
    ∧ (truthyQ st.lastRepTime = none →
      (trackRep angle true (some "squat") (some kps) fa now st).repHistory = st.repHistory
      ∧ (trackRep angle true (some "squat") (some kps) fa now st).lastRepTime = some now)
    ∧ (∀ (h : List RepRecord) (r : RepRecord),
        h.length ≤ 10 → (pushRepRecord h r).length ≤ 10) := by
  have hguard : ¬ st.movementHistory.length < 10 := by omega
  have hred : trackRep angle true (some "squat") (some kps) fa now st =
      recordRep st now ((fa.map FormResult.isValid).getD false) := by
    have hib : decide (|cY dp - cY lowest| < 20) = false := by simp [hnb]
    have hg1 : (!true || !truthyStr (some "squat") || (some kps).isNone) = false := rfl
    simp only [trackRep, hg1, Bool.false_eq_true, if_false, Option.getD_some, hdp]
    rw [if_neg hguard, if_pos trivial]
    simp only [hlow, hwl, hib, hv]
    simp
  refine ⟨?_, ?_, ?_⟩
  · intro t ht
    rw [hred, recordRep, ht, hv]
    exact ⟨rfl, rfl⟩
  · intro ht
    rw [hred, recordRep, ht]
    exact ⟨rfl, rfl⟩
  · intro h r hle
    simp only [pushRepRecord]
    split_ifs with hgt <;>
      simp only [List.length_drop, List.length_append, List.length_singleton] at * <;> omega

/-- C1 counterexample: on the very first detected rep (hysteresis condition
holds, form valid, no prior timestamp) the rep history stays empty — no
RepRecord is appended, contradicting the claim that a record is still appended
with only the duration skipped. -/
theorem C1_counterexample :
    (trackRep angle0 true (some "squat") (some kps1) (some frValid) 100 st0).repHistory = []
    ∧ (trackRep angle0 true (some "squat") (some kps1) (some frValid) 100 st0).lastRepTime
        = some 100
    ∧ st0.lastRepTime = none
    ∧ st0.repHistory = [] := by
  with_unfolding_all decide

/-- C1 witness: with a prior rep timestamp of 5, the same detection at time 100
appends a good rep of duration 95 and updates the timestamp. -/
theorem C1_witness :
    (trackRep angle0 true (some "squat") (some kps1) (some frValid) 100 stC1W).repHistory =
      [⟨100, 95, FormQuality.good⟩]
    ∧ (trackRep angle0 true (some "squat") (some kps1) (some frValid) 100 stC1W).lastRepTime
        = some 100 := by
  have h := (C1_rep_recording angle0 kps1 (some frValid) 100 stC1W dpC1 (dpAt 0 100)
    (by with_unfolding_all decide) (by with_unfolding_all decide)
    (by with_unfolding_all decide) (by with_unfolding_all decide)
    (by with_unfolding_all decide) (by with_unfolding_all decide)).1 5
    (by with_unfolding_all decide)
  refine ⟨?_, h.2⟩
  rw [h.1]
  with_unfolding_all decide

/-- C5: once the 5-second interval has elapsed, `getPredictions` returns
exactly the freshly recomputed `analyzeAndPredict` result (a pure function of
the current buffers, never merged with the cached prediction): an evaluation
with no suggestions yields null, a non-null evaluation replaces the cached
value wholesale, and the returned value is independent of the prior cache. -/
theorem C5_prediction_recomputation (isActive : Bool) (exercise : Option String)
    (st : TrackState) (ps : PredState) (now : ℚ)
    (h : ¬ now - ps.lastPredictionTime < PREDICTION_INTERVAL) :
    (getPredictions isActive exercise st ps now).1 = analyzeAndPredict isActive exercise st
    ∧ (analyzeAndPredict isActive exercise st = none →
        (getPredictions isActive exercise st ps now).1 = none
        ∧ (getPredictions isActive exercise st ps now).2.cached = ps.cached)
    ∧ (∀ p, analyzeAndPredict isActive exercise st = some p →
        (getPredictions isActive exercise st ps now).2.cached = some p)
    ∧ (∀ cache1 cache2 : Option Prediction,
        (getPredictions isActive exercise st ⟨ps.lastPredictionTime, cache1⟩ now).1 =
          (getPredictions isActive exercise st ⟨ps.lastPredictionTime, cache2⟩ now).1) := by
  have hred : ∀ c : Option Prediction,
      getPredictions isActive exercise st ⟨ps.lastPredictionTime, c⟩ now =
        (match analyzeAndPredict isActive exercise st with
          | some p => (some p, ⟨now, some p⟩)
          | none => (none, ⟨now, c⟩)) := by
    intro c
    rw [getPredictions, if_neg h]
  have hps : ps = ⟨ps.lastPredictionTime, ps.cached⟩ := rfl
  refine ⟨?_, ?_, ?_, ?_⟩
  · rw [hps, hred]
    cases analyzeAndPredict isActive exercise st <;> rfl
  · intro hA
    rw [hps, hred, hA]
    exact ⟨rfl, rfl⟩
  · intro p hA
    rw [hps, hred, hA]
  · intro c1 c2
    rw [hred, hred]
    cases analyzeAndPredict isActive exercise st <;> rfl

/-- C5 witness: with an elapsed interval, empty buffers and a non-null cached
prediction, the call returns null rather than any part of the cache. -/
theorem C5_witness :
    (getPredictions true (some "squat") emptyTrackState
      ⟨0, some ⟨Level.low, Level.low, []⟩⟩ 6000).1 = none :=
  ((C5_prediction_recomputation true (some "squat") emptyTrackState
      ⟨0, some ⟨Level.low, Level.low, []⟩⟩ 6000
      (by with_unfolding_all decide)).2.1 (by with_unfolding_all decide)).1

/-- Any element of the last-n slice is an element of the list. -/
theorem sliceLast_mem {α : Type} (n : Nat) (l : List α) (a : α)
    (h : a ∈ sliceLast n l) : a ∈ l :=
  List.mem_of_mem_drop h

/-- Recording a rep with a valid form result appends only good-quality records. -/
theorem recordRep_preserves_good (st : TrackState) (now : ℚ)
    (hall : ∀ r ∈ st.repHistory, r.formQuality = FormQuality.good) :
    ∀ r ∈ (recordRep st now true).repHistory, r.formQuality = FormQuality.good := by
  unfold recordRep
  cases htr : truthyQ st.lastRepTime with
  | none => exact hall
  | some t =>
    intro r hr
    simp only [pushRepRecord] at hr
    have hr2 : r ∈ st.repHistory ++ [(⟨now, now - t, FormQuality.good⟩ : RepRecord)] := by
      split_ifs at hr <;> first | exact List.mem_of_mem_drop hr | exact hr
    rcases List.mem_append.mp hr2 with h1 | h2
    · exact hall r h1
    · rw [List.mem_singleton] at h2
      subst h2
      rfl

/-- C3: every RepRecord ever appended to the rep history has formQuality good
(a rep is recorded only when the current FormResult is valid, and the quality
is derived from that same flag); consequently, over any all-good rep history,
`analyzeAndPredict` can never report high fatigue nor raise riskOfMistake
above low — the form-declining branches are unreachable. -/
theorem C3_all_reps_good :
    (∀ (angle : Keypoint → Keypoint → Keypoint → ℚ) (isActive : Bool)
        (exercise : Option String) (kps : Option (List Keypoint))
        (fa : Option FormResult) (now : ℚ) (st : TrackState),
      (∀ r ∈ st.repHistory, r.formQuality = FormQuality.good) →
      ∀ r ∈ (trackRep angle isActive exercise kps fa now st).repHistory,
        r.formQuality = FormQuality.good)
    ∧ (∀ (isActive : Bool) (exercise : Option String) (st : TrackState),
      (∀ r ∈ st.repHistory, r.formQuality = FormQuality.good) →
      ∀ p, analyzeAndPredict isActive exercise st = some p →
        p.fatigueLevel ≠ Level.high ∧ p.riskOfMistake = Level.low) := by
  constructor
  · intro angle isActive exercise kps fa now st hall
    simp only [trackRep]
    repeat' split
    all_goals try exact hall
    all_goals
      rename_i hg
      simp only [Bool.and_eq_true] at hg
      rw [hg.2]
      exact recordRep_preserves_good st now hall
  · intro isActive exercise st hall p hp
    simp only [analyzeAndPredict] at hp
    by_cases h3 : 3 ≤ st.repHistory.length
    case neg =>
      have hg : decide (st.repHistory.length < MIN_REPS_FOR_ANALYSIS) = true := by
        simp only [MIN_REPS_FOR_ANALYSIS, decide_eq_true_eq]
        omega
      rw [hg] at hp
      simp only [Bool.or_true, eq_self_iff_true, if_true] at hp
      split_ifs at hp
    case pos =>
      have hlen5 : (sliceLast 5 st.repHistory).length ≠ 0 := by
        simp only [sliceLast, List.length_drop]
        omega
      have hflt : (sliceLast 5 st.repHistory).filter
          (fun r => decide (r.formQuality = FormQuality.good)) = sliceLast 5 st.repHistory :=
        List.filter_eq_self.mpr (fun a ha => by
          simp [hall a (sliceLast_mem 5 st.repHistory a ha)])
      have hgf : goodFraction (sliceLast 5 st.repHistory) = 1 := by
        rw [goodFraction, hflt, div_self]
        exact_mod_cast Nat.cast_ne_zero.mpr hlen5
      have hfd : decide (goodFraction (sliceLast 5 st.repHistory) < 0.6) = false := by
        rw [hgf]
        simp only [decide_eq_false_iff_not]
        norm_num
      rw [hfd] at hp
      simp only [Bool.and_false, Bool.false_and, Bool.false_eq_true, if_false] at hp
      split_ifs at hp <;> cases hp <;> exact ⟨by simp, rfl⟩

/-- C3 witness: on a concrete all-good five-rep history the prediction exists
and reports neither high fatigue nor elevated risk. -/
theorem C3_witness :
    analyzeAndPredict true (some "squat") stW = some predW
    ∧ predW.fatigueLevel ≠ Level.high ∧ predW.riskOfMistake = Level.low := by
  have h := C3_all_reps_good.2 true (some "squat") stW
    (by with_unfolding_all decide) predW (by with_unfolding_all decide)
  exact ⟨by with_unfolding_all decide, h.1, h.2⟩

set_option maxHeartbeats 2000000 in
/-- Every suggestion `analyzeAndPredict` emits is one of the four fixed
warnings, or the milestone encouragement (whose guard requires the rep-history
length to be a positive multiple of 5). -/
theorem analyzeAndPredict_suggestion_types (isActive : Bool) (exercise : Option String)
    (st : TrackState) (p : Prediction)
    (hp : analyzeAndPredict isActive exercise st = some p) :
    ∀ s ∈ p.suggestions, s = suggSlowing ∨ s = suggBreak ∨ s = suggFocus ∨ s = suggPosture
      ∨ ((decide (st.repHistory.length > 0)
          && decide (st.repHistory.length % 5 = 0)) = true
        ∧ s = suggEncouragement st.repHistory.length) := by
  simp only [analyzeAndPredict] at hp
  split_ifs at hp <;> cases hp <;> intro s hs <;>
    simp only [List.mem_append, List.mem_singleton, List.not_mem_nil, or_false,
      false_or] at hs <;> tauto

/-- C4 (amended): with the evaluation guards met, a low-priority encouragement
with the rep-history length interpolated is in the suggestion list exactly when
that length (the exposed rep count, which lags detected reps by one and is
capped at 10) is a positive multiple of 5.  Stated in terms of the buffer
length: with 5 or 10 buffered reps the entry appears with that count; with 6
it does not; a count of 15 can never appear since the buffer holds at most 10. -/
theorem C4_milestone_encouragement (exercise : Option String) (st : TrackState)
    (hex : truthyStr exercise = true)
    (h20 : 20 ≤ st.movementHistory.length)
    (h3 : MIN_REPS_FOR_ANALYSIS ≤ st.repHistory.length) :
    (st.repHistory.length % 5 = 0 →
      ∃ p, analyzeAndPredict true exercise st = some p
        ∧ suggEncouragement st.repHistory.length ∈ p.suggestions)
    ∧ (st.repHistory.length % 5 ≠ 0 →
      ∀ p, analyzeAndPredict true exercise st = some p →
        ∀ s ∈ p.suggestions, s.type ≠ "encouragement") := by
  have hg1 : (!true || !truthyStr exercise) = false := by rw [hex]; rfl
  have hg2 : (decide (st.movementHistory.length < 20)
      || decide (st.repHistory.length < MIN_REPS_FOR_ANALYSIS)) = false := by
    simp only [MIN_REPS_FOR_ANALYSIS] at h3 ⊢
    simp only [Bool.or_eq_false_iff, decide_eq_false_iff_not]
    omega
  constructor
  · intro hmod
    have hm : (decide (st.repHistory.length > 0)
        && decide (st.repHistory.length % 5 = 0)) = true := by
      simp only [MIN_REPS_FOR_ANALYSIS] at h3
      simp only [Bool.and_eq_true, decide_eq_true_eq]
      exact ⟨by omega, hmod⟩
    simp only [analyzeAndPredict, hg1, hg2, Bool.false_eq_true, if_false, hm,
      eq_self_iff_true, if_true]
    rw [if_pos (by simp)]
    exact ⟨_, rfl, List.mem_append_right _ (List.mem_singleton_self _)⟩
  · intro hmod p hp s hs
    have ht := analyzeAndPredict_suggestion_types true exercise st p hp s hs
    rcases ht with rfl | rfl | rfl | rfl | ⟨hm5, rfl⟩
    · decide
    · decide
    · decide
    · decide
    · simp only [Bool.and_eq_true, decide_eq_true_eq] at hm5
      exact absurd hm5.2 hmod

/-- C4 counterexample: iterating 15 detected squat reps leaves 10 buffered
records (the first detection records nothing and the buffer caps at 10), and
the prediction after the 15th completed rep carries the encouragement with 10
interpolated — no suggestion with 15 exists; moreover after the 6th detected
rep (5 buffered) the encouragement is present, though the claim says the 6th
rep has none. -/
theorem C4_counterexample :
    (foldReps 15).repHistory.length = 10
    ∧ analyzeAndPredict true (some "squat") (foldReps 15) =
        some ⟨Level.low, Level.low, [suggEncouragement 10]⟩
    ∧ encouragementMessage 10 ≠ encouragementMessage 15
    ∧ analyzeAndPredict true (some "squat") (foldReps 6) =
        some ⟨Level.low, Level.low, [suggEncouragement 5]⟩ := by
  with_unfolding_all decide

/-- C4 witness: on a state with exactly 5 buffered good reps the encouragement
with count 5 is present. -/
theorem C4_witness :
    suggEncouragement 5 ∈ predW.suggestions
    ∧ analyzeAndPredict true (some "squat") stW = some predW := by
  have h := (C4_milestone_encouragement (some "squat") stW (by decide)
    (by with_unfolding_all decide) (by with_unfolding_all decide)).1
    (by with_unfolding_all decide)
  obtain ⟨p, hp, hmem⟩ := h
  have hpw : p = predW := by
    have : analyzeAndPredict true (some "squat") stW = some predW := by
      with_unfolding_all decide
    rw [this] at hp
    exact (Option.some_inj.mp hp).symm
  subst hpw
  exact ⟨hmem, hp⟩

/-- C7: for every squat frame (with resolved hip, knee, ankle, shoulder) that
triggers both the back-alignment check (hip angle < 150) and the knee-alignment
check, the returned FormResult carries the knee-alignment message — the later
check in evaluation order — with isValid false; and no secondary check ever
raises isValid back to true: a valid result implies neither secondary check
triggered. -/
theorem C7_squat_overwrite (angle : Keypoint → Keypoint → Keypoint → ℚ)
    (kps : List Keypoint) (hip knee ankle shoulder : Keypoint)
    (hh : (findKeypoint kps "left_hip").or (findKeypoint kps "right_hip") = some hip)
    (hk : (findKeypoint kps "left_knee").or (findKeypoint kps "right_knee") = some knee)
    (ha : (findKeypoint kps "left_ankle").or (findKeypoint kps "right_ankle") = some ankle)
    (hsh : (findKeypoint kps "left_shoulder").or (findKeypoint kps "right_shoulder")
      = some shoulder) :
    (angle shoulder hip knee < 150 → kneeAlignTriggered hip knee ankle = true →
      analyzeSquat angle kps =
        { feedback := msgSquatKneeAlign, isValid := false,
          kneeAngle := some (angle hip knee ankle),
          hipAngle := some (angle shoulder hip knee) })
    ∧ ((analyzeSquat angle kps).isValid = true →
      ¬ angle shoulder hip knee < 150 ∧ kneeAlignTriggered hip knee ankle = false) := by
  have hE : analyzeSquat angle kps = analyzeSquatCore angle hip knee ankle (some shoulder) := by
    simp only [analyzeSquat, hh, hk, ha, hsh]
  constructor
  · intro hb htr
    rw [hE]
    simp only [analyzeSquatCore, Option.map_some', htr, if_true, if_pos hb]
  · intro hval
    have htr : kneeAlignTriggered hip knee ankle = false := by
      by_contra hcon
      rw [Bool.not_eq_false] at hcon
      rw [hE] at hval
      simp only [analyzeSquatCore, Option.map_some', hcon, if_true] at hval
      cases hval
    refine ⟨?_, htr⟩
    intro hb
    rw [hE] at hval
    simp only [analyzeSquatCore, Option.map_some', htr, Bool.false_eq_true, if_false,
      if_pos hb] at hval

/-- C7 witness: a concrete frame (knee 100 units from the ankle horizontally,
angles all 90 degrees) fails both secondary checks and yields the
knee-alignment message with isValid false. -/
theorem C7_witness :
    analyzeSquat angle90 kpsC7 =
      { feedback := msgSquatKneeAlign, isValid := false,
        kneeAngle := some 90, hipAngle := some 90 } :=
  (C7_squat_overwrite angle90 kpsC7 ⟨"left_hip", 0, 0, 1⟩ ⟨"left_knee", 0, 10, 1⟩
    ⟨"left_ankle", 100, 10, 1⟩ ⟨"left_shoulder", 5, 5, 1⟩
    (by with_unfolding_all decide) (by with_unfolding_all decide)
    (by with_unfolding_all decide) (by with_unfolding_all decide)).1
    (by norm_num [angle90]) (by with_unfolding_all decide)

/-- C8: whenever a mandatory joint (hip, knee or ankle for squat; shoulder,
elbow or wrist for push-up, after prefer-left fall-back-to-right resolution) is
unresolved, the classifier returns the neutral result with empty feedback and
isValid false, and the result is independent of the angle function — no angle
computation influences it. -/
theorem C8_missing_joint (kps : List Keypoint) :
    (((findKeypoint kps "left_hip").or (findKeypoint kps "right_hip") = none
      ∨ (findKeypoint kps "left_knee").or (findKeypoint kps "right_knee") = none
      ∨ (findKeypoint kps "left_ankle").or (findKeypoint kps "right_ankle") = none) →
      ∀ angle angle2 : Keypoint → Keypoint → Keypoint → ℚ,
        analyzeSquat angle kps = { feedback := "", isValid := false }
        ∧ analyzeSquat angle2 kps = analyzeSquat angle kps)
    ∧ (((findKeypoint kps "left_shoulder").or (findKeypoint kps "right_shoulder") = none
      ∨ (findKeypoint kps "left_elbow").or (findKeypoint kps "right_elbow") = none
      ∨ (findKeypoint kps "left_wrist").or (findKeypoint kps "right_wrist") = none) →
      ∀ angle angle2 : Keypoint → Keypoint → Keypoint → ℚ,
        analyzePushUp angle kps = { feedback := "", isValid := false }
        ∧ analyzePushUp angle2 kps = analyzePushUp angle kps) := by
  constructor
  · intro h angle angle2
    have key : ∀ f : Keypoint → Keypoint → Keypoint → ℚ,
        analyzeSquat f kps = { feedback := "", isValid := false } := by
      intro f
      rcases h with h | h | h <;>
        cases hh : (findKeypoint kps "left_hip").or (findKeypoint kps "right_hip") <;>
        cases hk : (findKeypoint kps "left_knee").or (findKeypoint kps "right_knee") <;>
        cases ha : (findKeypoint kps "left_ankle").or (findKeypoint kps "right_ankle") <;>
        simp_all [analyzeSquat]
    exact ⟨key angle, (key angle2).trans (key angle).symm⟩
  · intro h angle angle2
    have key : ∀ f : Keypoint → Keypoint → Keypoint → ℚ,
        analyzePushUp f kps = { feedback := "", isValid := false } := by
      intro f
      rcases h with h | h | h <;>
        cases hs : (findKeypoint kps "left_shoulder").or (findKeypoint kps "right_shoulder") <;>
        cases he : (findKeypoint kps "left_elbow").or (findKeypoint kps "right_elbow") <;>
        cases hw : (findKeypoint kps "left_wrist").or (findKeypoint kps "right_wrist") <;>
        simp_all [analyzePushUp]
    exact ⟨key angle, (key angle2).trans (key angle).symm⟩

/-- C8 witness: a frame with hip, knee and shoulder but no ankle, elbow or
wrist gets the neutral result from both classifiers. -/
theorem C8_witness :
    analyzeSquat angle90 kpsC8 = { feedback := "", isValid := false }
    ∧ analyzePushUp angle90 kpsC8 = { feedback := "", isValid := false } :=
  ⟨((C8_missing_joint kpsC8).1 (Or.inr (Or.inr (by with_unfolding_all decide)))
      angle90 angle90).1,
   ((C8_missing_joint kpsC8).2 (Or.inr (Or.inl (by with_unfolding_all decide)))
      angle90 angle90).1⟩

end ChinUp
